import Mathlib

/-!
Shallow embedding of the DiffViewer component
(src/src/components/common/DiffViewer.js) of rn-upgrade-helper.

The pure logic of the component is embedded directly: the completion-toggle
handler, the diff-key function, the one-shot scroll-to-anchor reducer,
the view-style local-storage handling, the done-popover click handler,
the fetch-effect reset, and the "upgrade is done" message condition.
DOM and storage interactions are modelled as explicit state passing.
-/

namespace DiffViewer

/-- A diff object, as far as "getDiffKey" destructures it: its two revision
strings ("oldRevision" and "newRevision"). -/
structure DiffRevisions where
  oldRevision : String
  newRevision : String
deriving DecidableEq

/-- Embeds "const getDiffKey = ({ oldRevision, newRevision }) =>
`${oldRevision}${newRevision}`": the template literal concatenates the two
revision strings with no separator. -/
def getDiffKey (d : DiffRevisions) : String :=
  d.oldRevision ++ d.newRevision

/-- Embeds "handleCompleteDiff": if "completedDiffs.includes(diffKey)" the
state is replaced by "prevCompletedDiffs.filter((completedDiff) =>
completedDiff !== diffKey)", otherwise by "[...prevCompletedDiffs, diffKey]".
The React state update is modelled by returning the new list. -/
def handleCompleteDiff (completedDiffs : List String) (diffKey : String) :
    List String :=
  if completedDiffs.contains diffKey then
    completedDiffs.filter (fun completedDiff => completedDiff != diffKey)
  else
    completedDiffs ++ [diffKey]

/-- Embeds "const resetCompletedDiffs = () => setCompletedDiffs([])": the
completed-diffs state becomes the empty list. -/
def resetCompletedDiffs : List String := []

/-- One user-visible operation on the "completedDiffs" state: either a toggle
through "handleCompleteDiff" or a reset through "resetCompletedDiffs". -/
inductive CompletedDiffsOp where
  | toggle (diffKey : String)
  | reset

/-- Applies one operation to the "completedDiffs" state. -/
def applyCompletedDiffsOp (completedDiffs : List String) :
    CompletedDiffsOp → List String
  | .toggle diffKey => handleCompleteDiff completedDiffs diffKey
  | .reset => resetCompletedDiffs

/-- Runs a sequence of toggle/reset operations from the initial state
"useState([])". -/
def runCompletedDiffsOps (ops : List CompletedDiffsOp) : List String :=
  ops.foldl applyCompletedDiffsOp []

/-- The browser DOM facts "jumpToAnchor" reads: "window.location.hash"
(the empty string when the URL has no fragment, as in the browser) and
whether "document.getElementById" finds an element for a given id. -/
structure DomEnv where
  locationHash : String
  elementExists : String → Bool

/-- Embeds "jumpToAnchor": returns the reducer result (always "true" in the
source) paired with whether "ref.scrollIntoView()" was called. The guard
"!window.location.hash || stopScrolling" treats an empty hash string as
falsy, and "window.location.hash.slice(1)" drops the leading "#". -/
def jumpToAnchor (env : DomEnv) (stopScrolling : Bool) : Bool × Bool :=
  if env.locationHash = "" || stopScrolling then
    (true, false)
  else if !(env.elementExists (env.locationHash.drop 1)) then
    (true, false)
  else
    (true, true)

/-- The reducer state of "useReducer(jumpToAnchor, false)" after n dispatches
of "jumpToAnchorOnce"; the DOM may differ at each dispatch, so the
environment is a function of the dispatch index. -/
def jumpToAnchorStates (envs : Nat → DomEnv) : Nat → Bool
  | 0 => false
  | n + 1 => (jumpToAnchor (envs n) (jumpToAnchorStates envs n)).fst

/-- Browser local storage, modelled as a partial map from keys to stored
strings ("getItem" returns null, here "none", for an absent key). -/
abbrev Storage : Type := String → Option String

/-- Embeds "localStorage.setItem(key, value)". -/
def localStorageSetItem (store : Storage) (key value : String) : Storage :=
  fun k => if k = key then some value else store k

/-- Embeds the initializer "useState(localStorage.getItem(viewStyle) ||
split)": JavaScript "||" falls back to "split" when "getItem" returns
null (key absent) and also when it returns the empty string, since the
empty string is falsy. -/
def initialDiffViewStyle (store : Storage) : String :=
  match store "viewStyle" with
  | none => "split"
  | some s => if s = "" then "split" else s

/-- Embeds "handleViewStyleChange": sets the "diffViewStyle" state to
"newViewStyle" and writes "newViewStyle" under the storage key "viewStyle".
Returns the new state paired with the new storage. -/
def handleViewStyleChange (store : Storage) (newViewStyle : String) :
    String × Storage :=
  (newViewStyle, localStorageSetItem store "viewStyle" newViewStyle)

/-- A popover configuration: its "content" text and "cursorType". -/
structure PopoverOpts where
  content : String
  cursorType : String
deriving DecidableEq

/-- The two entries of the "donePopoverPossibleOpts" object. -/
structure DonePopoverChoices where
  done : PopoverOpts
  top : PopoverOpts

/-- Embeds the "donePopoverPossibleOpts" object literal. -/
def donePopoverPossibleOpts : DonePopoverChoices where
  done := { content := "Scroll to Done section", cursorType := "s-resize" }
  top := { content := "Scroll to Top", cursorType := "n-resize" }

/-- The scroll side effect of a counter click: "scrollToTop" or
"scrollToDone". -/
inductive ScrollTarget where
  | top
  | done
deriving DecidableEq

/-- The component state read and written by
"handleCompletedFilesCounterClick". -/
structure CounterState where
  isGoToDoneClicked : Bool
  donePopoverOpts : PopoverOpts

/-- The initial values "useState(false)" and
"useState(donePopoverPossibleOpts.done)". -/
def initialCounterState : CounterState where
  isGoToDoneClicked := false
  donePopoverOpts := donePopoverPossibleOpts.done

/-- Embeds "handleCompletedFilesCounterClick": flips "isGoToDoneClicked" and,
branching on the OLD value (the closure captures the pre-click state), sets
the popover opts and scrolls. Returns the new state and the scroll target. -/
def handleCompletedFilesCounterClick (s : CounterState) :
    CounterState × ScrollTarget :=
  if s.isGoToDoneClicked then
    ({ isGoToDoneClicked := !s.isGoToDoneClicked,
       donePopoverOpts := donePopoverPossibleOpts.done }, ScrollTarget.top)
  else
    ({ isGoToDoneClicked := !s.isGoToDoneClicked,
       donePopoverOpts := donePopoverPossibleOpts.top }, ScrollTarget.done)

/-- The counter state after n counter clicks from the initial state. -/
def counterStates : Nat → CounterState
  | 0 => initialCounterState
  | n + 1 => (handleCompletedFilesCounterClick (counterStates n)).fst

/-- Embeds the condition of "renderUpgradeDoneMessage": the success alert is
rendered exactly when "diff.length === completedDiffs.length". -/
def renderUpgradeDoneMessage (diff : List DiffRevisions)
    (completedDiffs : List String) : Bool :=
  diff.length == completedDiffs.length

/-- Embeds the "useEffect" on "[isDone]": "if (!isDone)
{ resetCompletedDiffs() }", i.e. the completed-diffs state is reset to the
empty list whenever the fetch is not done. -/
def fetchStatusEffect (isDone : Bool) (completedDiffs : List String) :
    List String :=
  if !isDone then resetCompletedDiffs else completedDiffs

/-- Membership in the toggle result, by cases on the source branches. -/
lemma mem_handleCompleteDiff (L : List String) (k j : String) :
    j ∈ handleCompleteDiff L k ↔
      (if k ∈ L then j ∈ L ∧ j ≠ k else j ∈ L ∨ j = k) := by
  by_cases h : k ∈ L <;>
    simp [handleCompleteDiff, List.contains, h, List.mem_filter, bne_iff_ne]

/-- A toggle preserves the no-duplicates invariant. -/
lemma nodup_handleCompleteDiff (L : List String) (k : String)
    (h : L.Nodup) : (handleCompleteDiff L k).Nodup := by
  by_cases hk : k ∈ L
  · have : handleCompleteDiff L k =
        L.filter (fun completedDiff => completedDiff != k) := by
      simp [handleCompleteDiff, List.contains, hk]
    rw [this]
    exact h.filter _
  · have : handleCompleteDiff L k = L ++ [k] := by
      simp [handleCompleteDiff, List.contains, hk]
    rw [this]
    simpa [List.nodup_append, List.disjoint_singleton] using ⟨h, hk⟩

/-- Toggling the toggled key itself: it is in the result exactly when it was
absent before. -/
lemma self_mem_handleCompleteDiff (L : List String) (k : String) :
    (k ∈ handleCompleteDiff L k ↔ k ∉ L) := by
  rw [mem_handleCompleteDiff]
  by_cases hk : k ∈ L <;> simp [hk]

/-- The no-duplicates invariant is preserved by any run of operations from
any duplicate-free start state. -/
lemma nodup_foldl_completedDiffsOps (ops : List CompletedDiffsOp)
    (L : List String) (h : L.Nodup) :
    (ops.foldl applyCompletedDiffsOp L).Nodup := by
  induction ops generalizing L with
  | nil => exact h
  | cons op ops ih =>
    cases op with
    | toggle k => exact ih _ (nodup_handleCompleteDiff L k h)
    | reset => exact ih _ List.nodup_nil

/-- C1: handleCompleteDiff is a membership toggle: when the key is an
element of the completed list the result is the list with every occurrence
of the key removed by filter, and when it is not the result is the list
with the key appended at the end. -/
theorem handleCompleteDiff_toggle_spec (L : List String) (k : String) :
    (k ∈ L → handleCompleteDiff L k =
      L.filter (fun completedDiff => completedDiff != k)) ∧
    (k ∉ L → handleCompleteDiff L k = L ++ [k]) := by
  constructor <;> intro h <;> simp [handleCompleteDiff, List.contains, h]

/-- Witness for C1 at concrete inputs, one per branch hypothesis. -/
theorem handleCompleteDiff_toggle_spec_witness :
    (("a" : String) ∈ ["a", "b"] ∧
      handleCompleteDiff ["a", "b"] "a" =
        (["a", "b"] : List String).filter
          (fun completedDiff => completedDiff != "a")) ∧
    (("c" : String) ∉ ["a", "b"] ∧
      handleCompleteDiff ["a", "b"] "c" = ["a", "b"] ++ ["c"]) :=
  ⟨⟨by decide, (handleCompleteDiff_toggle_spec ["a", "b"] "a").1 (by decide)⟩,
   ⟨by decide, (handleCompleteDiff_toggle_spec ["a", "b"] "c").2 (by decide)⟩⟩

/-- C2: every completedDiffs state reachable from the initial empty list by
any sequence of toggles and resets has no duplicate keys. -/
theorem completedDiffs_reachable_nodup (ops : List CompletedDiffsOp) :
    (runCompletedDiffsOps ops).Nodup :=
  nodup_foldl_completedDiffsOps ops [] List.nodup_nil

/-- C3: toggling key k changes only the completion status of k: any other
key j is in the result exactly when it was in the input list. -/
theorem handleCompleteDiff_frame (L : List String) (k j : String)
    (h : j ≠ k) : (j ∈ handleCompleteDiff L k ↔ j ∈ L) := by
  rw [mem_handleCompleteDiff]
  by_cases hk : k ∈ L <;> simp [hk, h]

/-- Witness for C3 at concrete inputs. -/
theorem handleCompleteDiff_frame_witness :
    ("b" : String) ≠ "a" ∧
      (("b" : String) ∈ handleCompleteDiff ["a", "b"] "a" ↔
        ("b" : String) ∈ ["a", "b"]) :=
  ⟨by decide, handleCompleteDiff_frame ["a", "b"] "a" "b" (by decide)⟩

/-- C4: on a duplicate-free list, toggling the same key twice yields a list
with exactly the same members as the original. -/
theorem handleCompleteDiff_double_toggle (L : List String) (k : String)
    (h : L.Nodup) (j : String) :
    (j ∈ handleCompleteDiff (handleCompleteDiff L k) k ↔ j ∈ L) := by
  by_cases hk : k ∈ L <;> by_cases hj : j = k <;>
    simp [mem_handleCompleteDiff, hk, hj]

/-- Witness for C4 at concrete inputs. -/
theorem handleCompleteDiff_double_toggle_witness :
    (["a", "b"] : List String).Nodup ∧
      (("a" : String) ∈ handleCompleteDiff (handleCompleteDiff ["a", "b"] "a") "a" ↔
        ("a" : String) ∈ ["a", "b"]) :=
  ⟨by decide, handleCompleteDiff_double_toggle ["a", "b"] "a" (by decide) "a"⟩

/-- C5: jumpToAnchor returns true on every input and branch, so the reducer
state is permanently true after the first dispatch, and any dispatch whose
state is already true takes the early-return branch and never scrolls. -/
theorem jumpToAnchor_one_shot (envs : Nat → DomEnv) :
    (∀ env stop, (jumpToAnchor env stop).fst = true) ∧
    (∀ n, 1 ≤ n → jumpToAnchorStates envs n = true) ∧
    (∀ env, (jumpToAnchor env true).snd = false) := by
  have hfst : ∀ env stop, (jumpToAnchor env stop).fst = true := by
    intro env stop
    unfold jumpToAnchor
    split
    · rfl
    · split <;> rfl
  refine ⟨hfst, ?_, ?_⟩
  · intro n hn
    match n, hn with
    | n + 1, _ => exact hfst (envs n) (jumpToAnchorStates envs n)
  · intro env
    simp [jumpToAnchor]

/-- Witness for C5 at a concrete environment and dispatch count. -/
theorem jumpToAnchor_one_shot_witness :
    (1 : Nat) ≤ 1 ∧
      jumpToAnchorStates
        (fun _ => { locationHash := "", elementExists := fun _ => false }) 1
        = true :=
  ⟨by decide, (jumpToAnchor_one_shot _).2.1 1 (by decide)⟩

/-- C6 counterexample: with the empty string stored under the key
"viewStyle" the key is present, yet the initial view style is "split" and
not the stored value, because the JavaScript "||" fallback also fires on
the empty string (a falsy value), not only on an absent key. -/
theorem viewStyle_initial_counterexample :
    (fun k => if k = "viewStyle" then some "" else none : Storage) "viewStyle"
        = some "" ∧
      initialDiffViewStyle
        (fun k => if k = "viewStyle" then some "" else none) = "split" ∧
      ("split" : String) ≠ "" :=
  ⟨rfl, rfl, by decide⟩

/-- C6 amended: the initial view style depends only on the storage key
"viewStyle"; it is "split" when that key is absent or holds the empty
string, and the stored value otherwise; handleViewStyleChange sets both the
view-style state and the stored "viewStyle" key to the new style and leaves
every other storage key unchanged. -/
theorem viewStyle_storage_spec (store : Storage) (s k v : String) :
    (∀ t : Storage, t "viewStyle" = store "viewStyle" →
      initialDiffViewStyle t = initialDiffViewStyle store) ∧
    (store "viewStyle" = none → initialDiffViewStyle store = "split") ∧
    (store "viewStyle" = some "" → initialDiffViewStyle store = "split") ∧
    (store "viewStyle" = some v → v ≠ "" → initialDiffViewStyle store = v) ∧
    (handleViewStyleChange store s).fst = s ∧
    (handleViewStyleChange store s).snd "viewStyle" = some s ∧
    (k ≠ "viewStyle" → (handleViewStyleChange store s).snd k = store k) := by
  refine ⟨?_, ?_, ?_, ?_, rfl, ?_, ?_⟩
  · intro t ht
    unfold initialDiffViewStyle
    rw [ht]
  · intro h
    unfold initialDiffViewStyle
    rw [h]
  · intro h
    unfold initialDiffViewStyle
    rw [h]
    rfl
  · intro h hv
    unfold initialDiffViewStyle
    rw [h]
    simp [hv]
  · simp [handleViewStyleChange, localStorageSetItem]
  · intro hk
    simp [handleViewStyleChange, localStorageSetItem, hk]

/-- Witness for C6 at concrete inputs, discharging the frame hypothesis. -/
theorem viewStyle_storage_spec_witness :
    ("other" : String) ≠ "viewStyle" ∧
      (handleViewStyleChange (fun _ => none) "unified").snd "other" =
        (fun _ => none : Storage) "other" :=
  ⟨by decide,
    (viewStyle_storage_spec (fun _ => none) "unified" "other"
      "x").2.2.2.2.2.2 (by decide)⟩

/-- The popover opts in any reachable counter state are determined by the
isGoToDoneClicked flag. -/
lemma counterStates_popover_eq (n : Nat) :
    (counterStates n).donePopoverOpts =
      (if (counterStates n).isGoToDoneClicked then donePopoverPossibleOpts.top
       else donePopoverPossibleOpts.done) := by
  induction n with
  | zero => rfl
  | succ n _ =>
    have hstep : counterStates (n + 1) =
        (handleCompletedFilesCounterClick (counterStates n)).fst := rfl
    rw [hstep]
    by_cases h : (counterStates n).isGoToDoneClicked <;>
      simp [handleCompletedFilesCounterClick, h]

/-- C7: the popover configuration starts at the done configuration, is
always one of exactly the two possible configurations, and each counter
click swaps it to the other one. -/
theorem donePopover_two_values_swap :
    (counterStates 0).donePopoverOpts = donePopoverPossibleOpts.done ∧
    donePopoverPossibleOpts.done ≠ donePopoverPossibleOpts.top ∧
    (∀ n, (counterStates n).donePopoverOpts = donePopoverPossibleOpts.done ∨
      (counterStates n).donePopoverOpts = donePopoverPossibleOpts.top) ∧
    (∀ n, (counterStates n).donePopoverOpts = donePopoverPossibleOpts.done →
      (counterStates (n + 1)).donePopoverOpts = donePopoverPossibleOpts.top) ∧
    (∀ n, (counterStates n).donePopoverOpts = donePopoverPossibleOpts.top →
      (counterStates (n + 1)).donePopoverOpts = donePopoverPossibleOpts.done) := by
  have hne : donePopoverPossibleOpts.done ≠ donePopoverPossibleOpts.top := by
    decide
  have aux1 : ∀ n, (counterStates (n + 1)).donePopoverOpts =
      (if (counterStates n).isGoToDoneClicked then donePopoverPossibleOpts.done
       else donePopoverPossibleOpts.top) := by
    intro n
    show (handleCompletedFilesCounterClick (counterStates n)).fst.donePopoverOpts = _
    by_cases h : (counterStates n).isGoToDoneClicked <;>
      simp [handleCompletedFilesCounterClick, h]
  refine ⟨rfl, hne, ?_, ?_, ?_⟩
  · intro n
    rw [counterStates_popover_eq n]
    by_cases h : (counterStates n).isGoToDoneClicked <;> simp [h]
  · intro n hdone
    rw [counterStates_popover_eq n] at hdone
    by_cases h : (counterStates n).isGoToDoneClicked
    · rw [if_pos h] at hdone
      exact absurd hdone.symm hne
    · rw [aux1 n, if_neg h]
  · intro n htop
    rw [counterStates_popover_eq n] at htop
    by_cases h : (counterStates n).isGoToDoneClicked
    · rw [aux1 n, if_pos h]
    · rw [if_neg h] at htop
      exact absurd htop hne

/-- Witness for C7: the first click swaps the popover from done to top. -/
theorem donePopover_two_values_swap_witness :
    (counterStates 0).donePopoverOpts = donePopoverPossibleOpts.done ∧
      (counterStates 1).donePopoverOpts = donePopoverPossibleOpts.top :=
  ⟨rfl, donePopover_two_values_swap.2.2.2.1 0 rfl⟩

/-- C8: getDiffKey is plain concatenation of the two revisions and is not
injective: two distinct revision pairs share one diff key. -/
theorem getDiffKey_concat_not_injective :
    (∀ d : DiffRevisions, getDiffKey d = d.oldRevision ++ d.newRevision) ∧
    ∃ p q : DiffRevisions, p ≠ q ∧ getDiffKey p = getDiffKey q :=
  ⟨fun _ => rfl,
    ⟨{ oldRevision := "a", newRevision := "bc" },
      { oldRevision := "ab", newRevision := "c" }, by decide, by decide⟩⟩

/-- C9: whenever the fetch state isDone is false, the effect resets the
completedDiffs state to the empty list. -/
theorem fetchEffect_resets_completed (isDone : Bool) (L : List String)
    (h : isDone = false) : fetchStatusEffect isDone L = [] := by
  subst h
  rfl

/-- Witness for C9 at concrete inputs. -/
theorem fetchEffect_resets_completed_witness :
    (false = false) ∧ fetchStatusEffect false ["k"] = [] :=
  ⟨rfl, fetchEffect_resets_completed false ["k"] rfl⟩

/-- C10: the upgrade-done message is rendered exactly when the lengths of
diff and completedDiffs are equal, a count comparison; in particular it is
rendered for an empty diff list with no completions. -/
theorem upgradeDoneMessage_iff_length (diff : List DiffRevisions)
    (completedDiffs : List String) :
    (renderUpgradeDoneMessage diff completedDiffs = true ↔
      diff.length = completedDiffs.length) ∧
    renderUpgradeDoneMessage [] [] = true :=
  ⟨by simp [renderUpgradeDoneMessage], rfl⟩

end DiffViewer
